import Mathlib

/-!
Verification development for the optical testplate-analysis core:
a shallow embedding of the surface-prescription parser (the ZemaxParser
object) and of the optical calculator (the Calculations object), together
with theorems about them.

Parser numbers are modelled as exact rationals; calculator numbers as
reals.  JavaScript string primitives (split, trim, startsWith, parseFloat,
the number-extraction regex) are modelled by structurally recursive
functions over the character list of a string, faithful to their behavior
on the inputs the parser feeds them (whitespace-free tokens, lines
without exotic Unicode whitespace).
-/

namespace ZemaxParser

/-- Model of JS String.prototype.split with a single-character class:
splits at every separator character, keeping empty pieces (so the result
is always nonempty, and an empty input yields one empty piece). -/
def splitChars (p : Char → Bool) : List Char → List (List Char)
  | [] => [[]]
  | c :: cs =>
    if p c then [] :: splitChars p cs
    else
      match splitChars p cs with
      | t :: ts => (c :: t) :: ts
      | [] => [[c]]

/-- The whitespace class the parser's inputs actually contain
(JS regex \s restricted to space, tab, newline, carriage return). -/
def isWsChar (c : Char) : Bool := c = ' ' || c = '\t' || c = '\n' || c = '\r'

/-- Model of JS String.prototype.trim on the parser's inputs. -/
def jsTrim (s : String) : String :=
  String.mk (((s.data.dropWhile isWsChar).reverse.dropWhile isWsChar).reverse)

/-- Character-list core of String.prototype.startsWith. -/
def startsWithChars : List Char → List Char → Bool
  | _, [] => true
  | [], _ :: _ => false
  | c :: cs, p :: ps => c = p && startsWithChars cs ps

/-- Model of JS String.prototype.startsWith. -/
def jsStartsWith (s pre : String) : Bool := startsWithChars s.data pre.data

/-- Model of content.split of the source on the newline character. -/
def splitLines (content : String) : List String :=
  (splitChars (fun c => c = '\n') content.data).map String.mk

/-- Model of trimmed.split on runs of whitespace (JS split(/\s+/) applied,
as in the source, to already-trimmed nonempty lines: the nonempty
whitespace-separated tokens, in order). -/
def jsTokens (s : String) : List String :=
  ((splitChars isWsChar s.data).filter (fun t => !t.isEmpty)).map String.mk

/-- Numeric value of a decimal digit character. -/
def digitVal (c : Char) : ℕ := c.toNat - 48

/-- Value of a list of decimal digit characters, most significant first. -/
def digitsToNat (ds : List Char) : ℕ := ds.foldl (fun acc c => 10 * acc + digitVal c) 0

/-- Split off the maximal leading run of decimal digits. -/
def takeDigits : List Char → List Char × List Char
  | [] => ([], [])
  | c :: cs =>
    if c.isDigit then
      match takeDigits cs with
      | (ds, rest) => (c :: ds, rest)
    else ([], c :: cs)

/-- Exponent suffix of a JS float literal: [eE][+-]?digits, or nothing.
Returns the signed exponent when the suffix is fully present. -/
def parseExpPart : List Char → Option Int
  | c :: cs =>
    if c = 'e' || c = 'E' then
      match cs with
      | s :: cs2 =>
        if s = '+' then
          match takeDigits cs2 with
          | (ds, _) => if ds.isEmpty then none else some (digitsToNat ds : Int)
        else if s = '-' then
          match takeDigits cs2 with
          | (ds, _) => if ds.isEmpty then none else some (-(digitsToNat ds : Int))
        else
          match takeDigits cs with
          | (ds, _) => if ds.isEmpty then none else some (digitsToNat ds : Int)
      | [] => none
    else none
  | [] => none

/-- Apply an optional exponent suffix to a parsed mantissa. -/
def applyExp (mant : ℚ) (rest : List Char) : ℚ :=
  match parseExpPart rest with
  | some e => mant * (10 : ℚ) ^ e
  | none => mant

/-- Unsigned core of JS parseFloat: longest valid prefix
digits[.digits][exponent], needing at least one mantissa digit. -/
def parseFloatCore (cs : List Char) : Option ℚ :=
  match takeDigits cs with
  | (intDs, rest1) =>
    match rest1 with
    | '.' :: cs2 =>
      match takeDigits cs2 with
      | (fracDs, rest2) =>
        if intDs.isEmpty && fracDs.isEmpty then none
        else some (applyExp ((digitsToNat intDs : ℚ) + (digitsToNat fracDs : ℚ) / (10 : ℚ) ^ fracDs.length) rest2)
    | _ =>
      if intDs.isEmpty then none
      else some (applyExp (digitsToNat intDs : ℚ) rest1)

/-- Model of JS parseFloat on the whitespace-free tokens the parser feeds
it: optional sign then the longest valid float prefix; none models NaN. -/
def parseFloat? (s : String) : Option ℚ :=
  match s.data with
  | '+' :: cs => parseFloatCore cs
  | '-' :: cs => (parseFloatCore cs).map (fun q => -q)
  | cs => parseFloatCore cs

/-- Greedy match of the regex piece [0-9]*\.?[0-9]+ at the head of the
input (with the regex backtracking semantics: a trailing dot with no
digit after it is left unconsumed).  Returns matched characters and the
rest. -/
def matchMantissa (cs : List Char) : Option (List Char × List Char) :=
  match takeDigits cs with
  | (intDs, rest1) =>
    match rest1 with
    | '.' :: cs2 =>
      match takeDigits cs2 with
      | (fracDs, rest2) =>
        if !fracDs.isEmpty then some (intDs ++ '.' :: fracDs, rest2)
        else if !intDs.isEmpty then some (intDs, rest1)
        else none
    | _ => if !intDs.isEmpty then some (intDs, rest1) else none

/-- Greedy match of the optional exponent piece ([eE][-+]?[0-9]+)? at the
head of the input: matched characters (possibly none) and the rest. -/
def matchExpChars (cs : List Char) : List Char × List Char :=
  match cs with
  | c :: rest =>
    if c = 'e' || c = 'E' then
      match rest with
      | s :: rest2 =>
        if s = '+' || s = '-' then
          match takeDigits rest2 with
          | (ds, r) => if !ds.isEmpty then (c :: s :: ds, r) else ([], cs)
        else
          match takeDigits rest with
          | (ds, r) => if !ds.isEmpty then (c :: ds, r) else ([], cs)
      | [] => ([], cs)
    else ([], cs)
  | [] => ([], [])

/-- Match of the full number regex [-+]?[0-9]*\.?[0-9]+([eE][-+]?[0-9]+)?
anchored at the head of the input. -/
def matchNumberAt (cs : List Char) : Option (List Char) :=
  match cs with
  | c :: rest =>
    if c = '+' || c = '-' then
      match matchMantissa rest with
      | some (m, r) => some (c :: (m ++ (matchExpChars r).1))
      | none => none
    else
      match matchMantissa cs with
      | some (m, r) => some (m ++ (matchExpChars r).1)
      | none => none
  | [] => none

/-- Leftmost match of the number regex in a character list. -/
def scanNumber : List Char → Option (List Char)
  | [] => none
  | c :: cs =>
    match matchNumberAt (c :: cs) with
    | some m => some m
    | none => scanNumber cs

/-- extractNumber of the source: first regex match for a number anywhere
in the line, fed through parseFloat. -/
def extractNumber (line : String) : Option ℚ :=
  match scanNumber line.data with
  | some m => parseFloat? (String.mk m)
  | none => none

/-- Left-pad a digit string with zeros to 4 characters. -/
def padZeros4 (s : String) : String :=
  String.mk (List.replicate (4 - s.length) '0') ++ s

/-- Model of JS Number.prototype.toFixed(4) on the values the source
feeds it (refractive indices greater than one): round to 4 decimal
places, print with exactly 4 fractional digits. -/
def toFixed4 (q : ℚ) : String :=
  let n := round (q * 10000)
  if n < 0 then
    "-" ++ toString ((-n) / 10000) ++ "." ++ padZeros4 (toString ((-n) % 10000))
  else
    toString (n / 10000) ++ "." ++ padZeros4 (toString (n % 10000))

/-- The regex test /^_+$/ of the source: nonempty and all underscores. -/
def matchUnderscores (s : String) : Bool :=
  !s.data.isEmpty && s.data.all (fun c => c = '_')

/-- extractMaterial of the source: second token of a GLAS line as a named
glass, except for the blank-glass sentinel, where the fifth token is read
as a refractive index and kept only when it parses and exceeds 1. -/
def extractMaterial (line : String) : Option String :=
  let parts := jsTokens line
  if parts.length < 2 then none
  else
    let materialName := parts.getD 1 ""
    if materialName ≠ "" && materialName ≠ "___BLANK" && !matchUnderscores materialName then
      some materialName
    else if materialName = "___BLANK" && parts.length ≥ 5 then
      match parseFloat? (parts.getD 4 "") with
      | some idx => if idx > 1 then some ("n=" ++ toFixed4 idx) else none
      | none => none
    else none

/-- JS truthiness of a string-or-null value: null and the empty string
are falsy. -/
def strTruthy : Option String → Bool
  | none => false
  | some s => s ≠ ""

/-- determineSurfaceType of the source: with a (truthy) material,
positive radius is Convex and negative is Concave; without one the
convention flips. -/
def determineSurfaceType (radius : ℚ) (material : Option String) : String :=
  if strTruthy material then
    if radius > 0 then "Convex" else "Concave"
  else
    if radius > 0 then "Concave" else "Convex"

/-- The per-surface accumulator of parseZmxFormat. -/
structure ZmxSurface where
  number : Int
  radius : ℚ
  curvature : ℚ
  diameter : ℚ
  material : Option String
deriving DecidableEq, Repr

/-- A parsed surface row as pushed to the output table. -/
structure SurfaceRecord where
  type : String
  diameter : ℚ
  rTestplate : ℚ
  material : Option String
  fringes : String
deriving DecidableEq, Repr

/-- isValidSurface of the source: nonzero radius, positive diameter. -/
def isValidSurface (s : ZmxSurface) : Bool :=
  s.radius ≠ 0 && s.diameter > 0

/-- formatSurface of the source: derive the type, report magnitudes,
replace a missing material by the empty string. -/
def formatSurface (s : ZmxSurface) : SurfaceRecord :=
  { type := determineSurfaceType s.radius s.material
  , diameter := |s.diameter|
  , rTestplate := |s.radius|
  , material := some (s.material.getD "")
  , fringes := "" }

/-- A line that starts a new surface block: its trimmed form starts with
the SURF marker (the same predicate in both passes of the source). -/
def isSurfLine (l : String) : Bool := jsStartsWith (jsTrim l) "SURF "

/-- The loop state of parseZmxFormat: rows emitted so far, the current
surface accumulator, and the zero-based index of the current surface. -/
structure ZmxState where
  surfaces : List SurfaceRecord
  currentSurface : Option ZmxSurface
  surfaceNumber : Int
deriving Repr

/-- The flush of the current accumulator performed both at every SURF
boundary and after the loop: emit the row when the data is valid and the
surface is neither the first (index 0) nor the last (index total-1). -/
def zmxFlush (total : ℕ) (st : ZmxState) : List SurfaceRecord :=
  match st.currentSurface with
  | some cur =>
    if isValidSurface cur ∧ 0 < cur.number ∧ cur.number < (total : Int) - 1 then
      st.surfaces ++ [formatSurface cur]
    else st.surfaces
  | none => st.surfaces

/-- One line of the second pass of parseZmxFormat.  The source checks the
SURF/CURV/DIAM/GLAS prefixes with four separate ifs on the same trimmed
line; the prefixes are mutually exclusive, so the chain below is the same
function. -/
def zmxStep (total : ℕ) (st : ZmxState) (rawLine : String) : ZmxState :=
  let line := jsTrim rawLine
  if jsStartsWith line "SURF " then
    { surfaces := zmxFlush total st
    , currentSurface := some
        ({ number := st.surfaceNumber + 1, radius := 0, curvature := 0
         , diameter := 0, material := none })
    , surfaceNumber := st.surfaceNumber + 1 }
  else if jsStartsWith line "CURV " then
    match st.currentSurface with
    | some cur =>
      match extractNumber line with
      | some c =>
        let newRadius := if c ≠ 0 then 1 / c else cur.radius
        { st with currentSurface := some { cur with curvature := c, radius := newRadius } }
      | none => st
    | none => st
  else if jsStartsWith line "DIAM " then
    match st.currentSurface with
    | some cur =>
      match extractNumber line with
      | some sd =>
        if sd > 0 then { st with currentSurface := some { cur with diameter := sd * 2 } }
        else st
      | none => st
    | none => st
  else if jsStartsWith line "GLAS " then
    match st.currentSurface with
    | some cur =>
      match extractMaterial line with
      | some m =>
        if m ≠ "" then { st with currentSurface := some { cur with material := some m } }
        else st
      | none => st
    | none => st
  else st

/-- parseZmxFormat of the source: first pass counts SURF lines, second
pass folds zmxStep from an empty state, and the last accumulator is
flushed after the loop. -/
def parseZmxFormat (content : String) : List SurfaceRecord :=
  let lines := splitLines content
  let totalSurfaces := (lines.filter (fun l => isSurfLine l)).length
  zmxFlush totalSurfaces
    (lines.foldl (zmxStep totalSurfaces)
      { surfaces := [], currentSurface := none, surfaceNumber := -1 })

/-- One line of parseTextFormat: skip blanks and comments, require at
least 3 whitespace tokens, read tokens 1 and 2 as radius and diameter,
and keep the line only for a nonzero radius and positive diameter. -/
def textStep (acc : List SurfaceRecord) (rawLine : String) : List SurfaceRecord :=
  let trimmed := jsTrim rawLine
  if trimmed = "" ∨ jsStartsWith trimmed "#" ∨ jsStartsWith trimmed "//" then acc
  else
    let parts := jsTokens trimmed
    if parts.length ≥ 3 then
      match parseFloat? (parts.getD 1 ""), parseFloat? (parts.getD 2 "") with
      | some radius, some diameter =>
        if radius ≠ 0 ∧ diameter > 0 then
          acc ++ [{ type := determineSurfaceType radius none
                  , diameter := diameter
                  , rTestplate := |radius|
                  , material := none
                  , fringes := "" }]
        else acc
      | some _, none => acc
      | none, _ => acc
    else acc

/-- parseTextFormat of the source: fold textStep over the lines. -/
def parseTextFormat (content : String) : List SurfaceRecord :=
  (splitLines content).foldl textStep []

/-- parse of the source: the zmx strategy first, then the plain-text
strategy, then the empty list. -/
def parse (content : String) : List SurfaceRecord :=
  let zmxSurfaces := parseZmxFormat content
  if zmxSurfaces.length > 0 then zmxSurfaces
  else
    let txtSurfaces := parseTextFormat content
    if txtSurfaces.length > 0 then txtSurfaces
    else []

/-- The line condition of parseTextFormat in full (used to state the
dispatcher claims): not blank, not a comment, at least 3 whitespace
tokens, tokens 1 and 2 parse with nonzero radius and positive
diameter. -/
def goodTextLine (l : String) : Bool :=
  let trimmed := jsTrim l
  if trimmed = "" ∨ jsStartsWith trimmed "#" ∨ jsStartsWith trimmed "//" then false
  else
    let parts := jsTokens trimmed
    if parts.length ≥ 3 then
      match parseFloat? (parts.getD 1 ""), parseFloat? (parts.getD 2 "") with
      | some radius, some diameter => decide (radius ≠ 0 ∧ diameter > 0)
      | some _, none => false
      | none, _ => false
    else false

/-- The line condition exactly as the dispatcher claim words it: at least
3 whitespace tokens whose second and third parse as a nonzero radius and
a strictly positive diameter (no comment-line proviso). -/
def claimTokensOk (l : String) : Bool :=
  let parts := jsTokens (jsTrim l)
  if parts.length ≥ 3 then
    match parseFloat? (parts.getD 1 ""), parseFloat? (parts.getD 2 "") with
    | some radius, some diameter => decide (radius ≠ 0 ∧ diameter > 0)
    | some _, none => false
    | none, _ => false
  else false

/-- The provenance of an emitted zmx row for a file with total SURF
lines: it is the formatted image of a valid accumulator whose index is
strictly between the first and the last surface. -/
def zmxEmitted (total : ℕ) (r : SurfaceRecord) : Prop :=
  ∃ cur : ZmxSurface, r = formatSurface cur ∧ isValidSurface cur = true ∧
    0 < cur.number ∧ cur.number < (total : Int) - 1

/-- The inductive invariant of the second zmx pass: the current
accumulator (when present) carries the current index, the emitted rows
all have interior provenance, and their count is bounded by the count of
interior indices seen so far. -/
def ZmxInv (total : ℕ) (st : ZmxState) : Prop :=
  (∀ cur, st.currentSurface = some cur → cur.number = st.surfaceNumber) ∧
  ((st.surfaces.length : Int) ≤ max 0 (min (st.surfaceNumber - 1) ((total : Int) - 2))) ∧
  (∀ r ∈ st.surfaces, zmxEmitted total r)

end ZemaxParser

namespace Calculations

open scoped Classical in
/-- calculateTestplateSag of the source: z = |R| - sqrt(R^2 - (D/2)^2),
with a sentinel zero for a zero radius, a zero diameter, or a diameter
exceeding the valid aperture.  The source names r2 = radius*radius and
d2 = (diameter/2)*(diameter/2); they are inlined here. -/
noncomputable def calculateTestplateSag (radius diameter : ℝ) : ℝ :=
  if radius = 0 ∨ diameter = 0 then 0
  else if radius * radius < (diameter / 2) * (diameter / 2) then 0
  else |radius| - Real.sqrt (radius * radius - (diameter / 2) * (diameter / 2))

/-- calculateFringeSag of the source: fringes * (wavelength in mm) / 2,
where the wavelength is converted from nm by dividing by 1000000. -/
noncomputable def calculateFringeSag (fringes wavelength : ℝ) : ℝ :=
  fringes * (wavelength / 1000000) / 2

/-- calculateActualSag of the source: the Convex type adds the fringe
sag, every other type subtracts it. -/
noncomputable def calculateActualSag (type : String) (testplateSag fringeSag : ℝ) : ℝ :=
  if type = "Convex" then testplateSag + fringeSag
  else testplateSag - fringeSag

open scoped Classical in
/-- calculateActualRadius of the source: R = (D^2/4 + z^2) / (2z) with a
sentinel zero for zero sag or diameter; the sign of the magnitude is then
forced by the type (Concave negative, everything else positive).  The
source names d2 = diameter*diameter/4, z2 = sag*sag and radius for the
quotient; they are inlined here. -/
noncomputable def calculateActualRadius (type : String) (diameter sag : ℝ) : ℝ :=
  if sag = 0 ∨ diameter = 0 then 0
  else if type = "Concave" then
    -|(diameter * diameter / 4 + sag * sag) / (2 * sag)|
  else |(diameter * diameter / 4 + sag * sag) / (2 * sag)|

/-- The record returned by calculateSurface. -/
structure CalcResult where
  sagTestplate : ℝ
  sagAdded : ℝ
  sagActual : ℝ
  rActual : ℝ

/-- calculateSurface of the source: testplate sag, fringe sag, actual
sag, actual radius, in that order, threading results. -/
noncomputable def calculateSurface (type : String) (diameter rTestplate fringes wavelength : ℝ) :
    CalcResult :=
  let sagTestplate := calculateTestplateSag rTestplate diameter
  let sagAdded := calculateFringeSag fringes wavelength
  let sagActual := calculateActualSag type sagTestplate sagAdded
  let rActual := calculateActualRadius type diameter sagActual
  { sagTestplate := sagTestplate, sagAdded := sagAdded
  , sagActual := sagActual, rActual := rActual }

open scoped Classical in
/-- radiusToCurvature of the source: reciprocal with zero fixed point. -/
noncomputable def radiusToCurvature (radius : ℝ) : ℝ :=
  if radius = 0 then 0 else 1 / radius

open scoped Classical in
/-- curvatureToRadius of the source: reciprocal with zero fixed point. -/
noncomputable def curvatureToRadius (curvature : ℝ) : ℝ :=
  if curvature = 0 then 0 else 1 / curvature

end Calculations

section Claims

open ZemaxParser Calculations

/-- Lower bound of the square root of 864. -/
lemma sqrt864_gt : (29.3938 : ℝ) < Real.sqrt 864 :=
  (Real.lt_sqrt (by norm_num)).mpr (by norm_num)

/-- Upper bound of the square root of 864. -/
lemma sqrt864_lt : Real.sqrt 864 < (29.3939 : ℝ) :=
  (Real.sqrt_lt' (by norm_num)).mpr (by norm_num)

/-- The testplate sag of the C2 example in closed form. -/
lemma c2_sagTestplate_eq :
    (calculateSurface "Convex" 30 33 5 632.8).sagTestplate = 33 - Real.sqrt 864 := by
  simp only [calculateSurface, calculateTestplateSag]
  rw [if_neg (by norm_num), if_neg (by norm_num)]
  norm_num

/-- The fringe sag of the C2 example in closed form. -/
lemma c2_sagAdded_eq :
    (calculateSurface "Convex" 30 33 5 632.8).sagAdded = 0.001582 := by
  simp only [calculateSurface, calculateFringeSag]
  norm_num

/-- The actual sag of the C2 example is the sum of the other two sags. -/
lemma c2_sagActual_eq :
    (calculateSurface "Convex" 30 33 5 632.8).sagActual =
      (calculateSurface "Convex" 30 33 5 632.8).sagTestplate +
        (calculateSurface "Convex" 30 33 5 632.8).sagAdded := by
  simp only [calculateSurface, calculateActualSag]
  simp

/-- C2 counterexample: at the example input the testplate sag is not
close to the claimed 3.47106 mm (it is off by more than 0.1 mm). -/
theorem claimC2_counterexample :
    0.1 ≤ |(calculateSurface "Convex" 30 33 5 632.8).sagTestplate - 3.47106| := by
  rw [c2_sagTestplate_eq]
  have h1 := sqrt864_lt
  rw [abs_of_pos (by linarith)]
  linarith

/-- C2 as amended: calculateSurface on Convex, diameter 30, testplate
radius 33, 5 fringes at 632.8 nm yields testplate sag 33 - sqrt 864,
between 3.6061 and 3.6062 mm (not 3.47106 mm), fringe sag exactly
5 * (632.8/1e6)/2 = 0.001582 mm, actual sag the sum of the two sags, and
a strictly positive actual radius. -/
theorem claimC2_amended :
    3.6061 < (calculateSurface "Convex" 30 33 5 632.8).sagTestplate ∧
    (calculateSurface "Convex" 30 33 5 632.8).sagTestplate < 3.6062 ∧
    (calculateSurface "Convex" 30 33 5 632.8).sagAdded = 5 * (632.8 / 1000000) / 2 ∧
    (calculateSurface "Convex" 30 33 5 632.8).sagAdded = 0.001582 ∧
    (calculateSurface "Convex" 30 33 5 632.8).sagActual =
      (calculateSurface "Convex" 30 33 5 632.8).sagTestplate +
        (calculateSurface "Convex" 30 33 5 632.8).sagAdded ∧
    0 < (calculateSurface "Convex" 30 33 5 632.8).rActual := by
  have hs := c2_sagTestplate_eq
  have hgt := sqrt864_gt
  have hlt := sqrt864_lt
  have ha := c2_sagAdded_eq
  have hact := c2_sagActual_eq
  have hb1 : 3.6061 < (calculateSurface "Convex" 30 33 5 632.8).sagTestplate := by
    rw [hs]; linarith
  have hb2 : (calculateSurface "Convex" 30 33 5 632.8).sagTestplate < 3.6062 := by
    rw [hs]; linarith
  have hz1 : 3.6 < (calculateSurface "Convex" 30 33 5 632.8).sagActual := by
    rw [hact, ha]; linarith
  have hrd : (calculateSurface "Convex" 30 33 5 632.8).rActual =
      calculateActualRadius "Convex" 30 ((calculateSurface "Convex" 30 33 5 632.8).sagActual) := by
    simp only [calculateSurface]
  have hrpos : 0 < (calculateSurface "Convex" 30 33 5 632.8).rActual := by
    rw [hrd]
    unfold calculateActualRadius
    rw [if_neg (by push_neg; exact ⟨by linarith, by norm_num⟩), if_neg (by decide)]
    have hq : 0 < ((30 : ℝ) * 30 / 4 +
        (calculateSurface "Convex" 30 33 5 632.8).sagActual *
          (calculateSurface "Convex" 30 33 5 632.8).sagActual) /
        (2 * (calculateSurface "Convex" 30 33 5 632.8).sagActual) := by
      apply div_pos
      · nlinarith
      · linarith
    rw [abs_of_pos hq]
    exact hq
  exact ⟨hb1, hb2, by rw [ha]; norm_num, ha, hact, hrpos⟩

/-- C3: calculateTestplateSag returns 0 on all the degenerate or invalid
inputs; in every other case it equals |r| - sqrt(r*r - (d/2)*(d/2)); it
is always non-negative; and the sign of the radius does not affect the
result. -/
theorem claimC3 (r d : ℝ) :
    (r = 0 ∨ d = 0 ∨ r * r < (d / 2) * (d / 2) → calculateTestplateSag r d = 0) ∧
    (r ≠ 0 → d ≠ 0 → ¬ r * r < (d / 2) * (d / 2) →
      calculateTestplateSag r d = |r| - Real.sqrt (r * r - (d / 2) * (d / 2))) ∧
    0 ≤ calculateTestplateSag r d ∧
    calculateTestplateSag (-r) d = calculateTestplateSag r d := by
  refine ⟨?_, ?_, ?_, ?_⟩
  · intro h
    unfold calculateTestplateSag
    split_ifs with h1 h2
    · rfl
    · rfl
    · exact absurd h (by tauto)
  · intro hr hd hlt
    unfold calculateTestplateSag
    rw [if_neg (by tauto), if_neg hlt]
  · unfold calculateTestplateSag
    split_ifs with h1 h2
    · exact le_refl 0
    · exact le_refl 0
    · have hle : r * r - (d / 2) * (d / 2) ≤ r * r := by
        nlinarith [mul_self_nonneg (d / 2)]
      have h3 : Real.sqrt (r * r - (d / 2) * (d / 2)) ≤ |r| := by
        calc Real.sqrt (r * r - (d / 2) * (d / 2)) ≤ Real.sqrt (r * r) :=
              Real.sqrt_le_sqrt hle
          _ = |r| := Real.sqrt_mul_self_eq_abs r
      linarith
  · unfold calculateTestplateSag
    simp only [neg_mul_neg, abs_neg, neg_eq_zero]

/-- C3 witness: the sentinel case at r = 0 and the main formula at
r = 3, d = 2, both through the theorem. -/
theorem claimC3_witness :
    calculateTestplateSag 0 5 = 0 ∧
    calculateTestplateSag 3 2 = |(3 : ℝ)| - Real.sqrt ((3 : ℝ) * 3 - (2 / 2) * (2 / 2)) :=
  ⟨(claimC3 0 5).1 (Or.inl rfl),
   (claimC3 3 2).2.1 (by norm_num) (by norm_num) (by norm_num)⟩

/-- C5: the 2-by-2 surface-type decision table: with a (nonempty)
material, positive radius is Convex and negative radius is Concave; with
no material, positive radius is Concave and negative radius is Convex. -/
theorem claimC5 (r : ℚ) (m : String) (hm : m ≠ "") :
    (0 < r → determineSurfaceType r (some m) = "Convex") ∧
    (r < 0 → determineSurfaceType r (some m) = "Concave") ∧
    (0 < r → determineSurfaceType r none = "Concave") ∧
    (r < 0 → determineSurfaceType r none = "Convex") := by
  unfold determineSurfaceType strTruthy
  refine ⟨fun h => ?_, fun h => ?_, fun h => ?_, fun h => ?_⟩
  · simp [hm, h]
  · simp [hm, not_lt_of_lt h]
  · simp [h]
  · simp [not_lt_of_lt h]

/-- C5 witness: the decision table applied at radius -2 with material
N-BK7 and with no material. -/
theorem claimC5_witness :
    ("N-BK7" : String) ≠ "" ∧ (-2 : ℚ) < 0 ∧
    determineSurfaceType (-2) (some "N-BK7") = "Concave" ∧
    determineSurfaceType (-2) none = "Convex" :=
  ⟨by decide, by norm_num,
   (claimC5 (-2) "N-BK7" (by decide)).2.1 (by norm_num),
   (claimC5 (-2) "N-BK7" (by decide)).2.2.2 (by norm_num)⟩

/-- C6: calculateActualRadius is non-positive for Concave, non-negative
for Convex, and is the sentinel zero exactly when the sag or the
diameter is zero. -/
theorem claimC6 (type : String) (d s : ℝ) :
    (type = "Concave" → calculateActualRadius type d s ≤ 0) ∧
    (type = "Convex" → 0 ≤ calculateActualRadius type d s) ∧
    (calculateActualRadius type d s = 0 ↔ s = 0 ∨ d = 0) := by
  unfold calculateActualRadius
  split_ifs with h1 h2
  · exact ⟨fun _ => le_refl 0, fun _ => le_refl 0, by simp [h1]⟩
  · push_neg at h1
    have hq : (d * d / 4 + s * s) / (2 * s) ≠ 0 := by
      apply div_ne_zero
      · have := mul_self_pos.mpr h1.1
        nlinarith [mul_self_nonneg d]
      · exact mul_ne_zero two_ne_zero h1.1
    refine ⟨fun _ => neg_nonpos.mpr (abs_nonneg _), fun hcx => ?_, ?_⟩
    · rw [h2] at hcx; exact absurd hcx (by decide)
    · constructor
      · intro h0
        rw [neg_eq_zero, abs_eq_zero] at h0
        exact absurd h0 hq
      · intro h0
        exact absurd h0 (by push_neg; exact h1)
  · push_neg at h1
    have hq : (d * d / 4 + s * s) / (2 * s) ≠ 0 := by
      apply div_ne_zero
      · have := mul_self_pos.mpr h1.1
        nlinarith [mul_self_nonneg d]
      · exact mul_ne_zero two_ne_zero h1.1
    refine ⟨fun hcc => absurd hcc h2, fun _ => abs_nonneg _, ?_⟩
    constructor
    · intro h0
      rw [abs_eq_zero] at h0
      exact absurd h0 hq
    · intro h0
      exact absurd h0 (by push_neg; exact h1)

/-- C6 witness: the sign convention and the sentinel at concrete
inputs, through the theorem. -/
theorem claimC6_witness :
    calculateActualRadius "Concave" 10 1 ≤ 0 ∧
    0 ≤ calculateActualRadius "Convex" 10 1 ∧
    (calculateActualRadius "Convex" 10 0 = 0 ↔ (0 : ℝ) = 0 ∨ (10 : ℝ) = 0) :=
  ⟨(claimC6 "Concave" 10 1).1 rfl,
   (claimC6 "Convex" 10 1).2.1 rfl,
   (claimC6 "Convex" 10 0).2.2⟩

/-- C9: calculateFringeSag is the stated unit conversion and is linear
in the fringe count (doubling the count doubles the sag), for all real
counts and wavelengths, fractional and negative included. -/
theorem claimC9 (n lam : ℝ) :
    calculateFringeSag n lam = n * (lam / 1000000) / 2 ∧
    calculateFringeSag (2 * n) lam = 2 * calculateFringeSag n lam := by
  unfold calculateFringeSag
  exact ⟨rfl, by ring⟩

/-- C10: for any surface type other than the exact strings Convex and
Concave, the actual sag uses the Concave rule (testplate minus fringe)
while the actual radius uses the Convex rule (non-negative), both for
the component functions and through calculateSurface. -/
theorem claimC10 (type : String) (a b d s rT n w : ℝ)
    (h1 : type ≠ "Convex") (h2 : type ≠ "Concave") :
    calculateActualSag type a b = a - b ∧
    0 ≤ calculateActualRadius type d s ∧
    (calculateSurface type d rT n w).sagActual =
      (calculateSurface type d rT n w).sagTestplate -
        (calculateSurface type d rT n w).sagAdded ∧
    0 ≤ (calculateSurface type d rT n w).rActual := by
  have hsag : ∀ x y : ℝ, calculateActualSag type x y = x - y := by
    intro x y
    unfold calculateActualSag
    rw [if_neg h1]
  have hrad : ∀ x y : ℝ, 0 ≤ calculateActualRadius type x y := by
    intro x y
    unfold calculateActualRadius
    rw [if_neg h2]
    split_ifs
    · exact le_refl 0
    · exact abs_nonneg _
  simp only [calculateSurface]
  exact ⟨hsag a b, hrad d s, hsag _ _, hrad _ _⟩

/-- C10 witness: the inconsistent conventions at the empty type string
with concrete numbers, through the theorem. -/
theorem claimC10_witness :
    ("" : String) ≠ "Convex" ∧ ("" : String) ≠ "Concave" ∧
    calculateActualSag "" 3 1 = 3 - 1 ∧
    0 ≤ calculateActualRadius "" 10 2 :=
  ⟨by decide, by decide,
   (claimC10 "" 3 1 10 2 33 5 632.8 (by decide) (by decide)).1,
   (claimC10 "" 3 1 10 2 33 5 632.8 (by decide) (by decide)).2.1⟩

/-- C1 counterexample: the single record extracted from the line
S1 -50.0 25.4 has surface type Convex, not Concave as claimed (negative
radius with no material is Convex in the source's convention). -/
theorem claimC1_counterexample :
    (parseTextFormat "S1 -50.0 25.4").map SurfaceRecord.type ≠ ["Concave"] := by
  with_unfolding_all decide

/-- C1 as amended: the line S1 -50.0 25.4 yields exactly one record with
diameter 25.4 mm, testplate radius 50.0 mm, no material, and surface
type Convex (no material and negative radius give Convex). -/
theorem claimC1_amended :
    parseTextFormat "S1 -50.0 25.4" =
      [{ type := "Convex", diameter := 25.4, rTestplate := 50
       , material := none, fringes := "" }] := by
  with_unfolding_all decide

/-- C7: a GLAS line with the blank-glass sentinel and fifth token 1.52
yields the synthetic label n=1.5200; a GLAS N-BK7 line yields N-BK7; a
blank-glass index not exceeding 1.0 is rejected. -/
theorem claimC7 :
    extractMaterial "GLAS ___BLANK 1 0 1.52 1 0 0 0 0" = some "n=1.5200" ∧
    extractMaterial "GLAS N-BK7 1 0 1.5168 64.2" = some "N-BK7" ∧
    extractMaterial "GLAS ___BLANK 1 0 1.0 1 0" = none := by
  with_unfolding_all decide

/-- A non-SURF line leaves a state with no current surface unchanged. -/
lemma zmxStep_of_not_surf (total : ℕ) (st : ZmxState) (l : String)
    (hcur : st.currentSurface = none) (hs : isSurfLine l = false) :
    zmxStep total st l = st := by
  unfold isSurfLine at hs
  simp only [zmxStep, hcur, hs, Bool.false_eq_true, if_false, ite_self]

/-- With no SURF line at all, the whole second pass leaves the empty
initial state unchanged. -/
lemma zmxFoldl_of_no_surf (total : ℕ) (ls : List String) (st : ZmxState)
    (hcur : st.currentSurface = none) :
    (∀ l ∈ ls, isSurfLine l = false) → ls.foldl (zmxStep total) st = st := by
  induction ls with
  | nil => intro _; rfl
  | cons l ls ih =>
    intro h
    rw [List.foldl_cons, zmxStep_of_not_surf total st l hcur (h l (List.mem_cons_self l ls))]
    exact ih (fun x hx => h x (List.mem_cons_of_mem l hx))

/-- A file with no surface-boundary marker yields no structured
surfaces. -/
lemma parseZmxFormat_eq_nil_of_no_surf (content : String)
    (h : ∀ l ∈ splitLines content, isSurfLine l = false) :
    parseZmxFormat content = [] := by
  simp only [parseZmxFormat]
  rw [zmxFoldl_of_no_surf _ _ _ rfl h]
  rfl

/-- A text-format step never shortens the accumulator. -/
lemma textStep_length_ge (acc : List SurfaceRecord) (l : String) :
    acc.length ≤ (textStep acc l).length := by
  simp only [textStep]
  split_ifs with h1 h2
  · exact le_refl _
  · split
    · split_ifs with h3
      · simp
      · exact le_refl _
    · exact le_refl _
    · exact le_refl _
  · exact le_refl _

/-- Unpacking the gates certified by goodTextLine. -/
lemma goodTextLine_spec (l : String) (h : goodTextLine l = true) :
    ¬(jsTrim l = "" ∨ jsStartsWith (jsTrim l) "#" = true ∨
        jsStartsWith (jsTrim l) "//" = true) ∧
    (jsTokens (jsTrim l)).length ≥ 3 ∧
    ∃ radius diameter,
      parseFloat? ((jsTokens (jsTrim l)).getD 1 "") = some radius ∧
      parseFloat? ((jsTokens (jsTrim l)).getD 2 "") = some diameter ∧
      radius ≠ 0 ∧ diameter > 0 := by
  simp only [goodTextLine] at h
  split_ifs at h with h1 h2
  refine ⟨h1, h2, ?_⟩
  cases hr : parseFloat? ((jsTokens (jsTrim l)).getD 1 "") with
  | none => rw [hr] at h; simp at h
  | some radius =>
    cases hd : parseFloat? ((jsTokens (jsTrim l)).getD 2 "") with
    | none => rw [hr, hd] at h; simp at h
    | some diameter =>
      rw [hr, hd] at h
      simp only [Bool.and_eq_true, Bool.not_eq_true', decide_eq_true_eq,
        decide_eq_false_iff_not] at h
      exact ⟨radius, diameter, rfl, rfl, h.1, h.2⟩

/-- A line passing all the text-format gates appends exactly one
record. -/
lemma textStep_of_good (acc : List SurfaceRecord) (l : String)
    (h : goodTextLine l = true) :
    (textStep acc l).length = acc.length + 1 := by
  obtain ⟨h1, h2, radius, diameter, hr, hd, hrnz, hdpos⟩ := goodTextLine_spec l h
  simp only [textStep]
  rw [if_neg h1, if_pos h2, hr, hd]
  dsimp only
  rw [if_pos ⟨hrnz, hdpos⟩]
  simp

/-- The text-format fold never shortens the accumulator. -/
lemma textFoldl_length_ge (ls : List String) (acc : List SurfaceRecord) :
    acc.length ≤ (ls.foldl textStep acc).length := by
  induction ls generalizing acc with
  | nil => exact le_refl _
  | cons l ls ih =>
    rw [List.foldl_cons]
    exact le_trans (textStep_length_ge acc l) (ih _)

/-- The text-format fold grows strictly when some line passes all the
gates. -/
lemma textFoldl_pos (ls : List String) (acc : List SurfaceRecord)
    (h : ∃ l ∈ ls, goodTextLine l = true) :
    acc.length < (ls.foldl textStep acc).length := by
  induction ls generalizing acc with
  | nil => simp at h
  | cons l ls ih =>
    rw [List.foldl_cons]
    rcases h with ⟨x, hx, hgood⟩
    rcases List.mem_cons.mp hx with rfl | hxs
    · have h1 : acc.length < (textStep acc x).length := by
        rw [textStep_of_good acc x hgood]
        exact Nat.lt_succ_self _
      exact lt_of_lt_of_le h1 (textFoldl_length_ge ls _)
    · exact lt_of_le_of_lt (textStep_length_ge acc l) (ih _ ⟨x, hxs, hgood⟩)

/-- C8 counterexample: the content consisting of the single comment line
number-sign 1 2 3 has no surface-boundary marker and has a line whose
tokens satisfy the claim's textual condition (at least 3 tokens, second
and third parsing as nonzero radius and positive diameter), yet parse
returns the empty sequence, not a non-empty delimited-text result. -/
theorem claimC8_counterexample :
    ((splitLines "# 1 2 3").all (fun l => !isSurfLine l)) = true ∧
    ((splitLines "# 1 2 3").any (fun l => claimTokensOk l)) = true ∧
    parse "# 1 2 3" = [] := by
  with_unfolding_all decide

/-- C8 as amended: parse tries the structured result first, then the
delimited result, then returns empty; and for content with no
surface-boundary marker and at least one line passing all the
delimited-text gates (including not being a comment line, the proviso
the original claim omitted), parse returns the non-empty delimited-text
result. -/
theorem claimC8_amended (content : String)
    (h1 : ∀ l ∈ splitLines content, isSurfLine l = false)
    (h2 : ∃ l ∈ splitLines content, goodTextLine l = true) :
    (∀ c : String,
      (parseZmxFormat c ≠ [] → parse c = parseZmxFormat c) ∧
      (parseZmxFormat c = [] → parseTextFormat c ≠ [] → parse c = parseTextFormat c) ∧
      (parseZmxFormat c = [] → parseTextFormat c = [] → parse c = [])) ∧
    parse content = parseTextFormat content ∧
    parseTextFormat content ≠ [] := by
  have hdisp : ∀ c : String,
      (parseZmxFormat c ≠ [] → parse c = parseZmxFormat c) ∧
      (parseZmxFormat c = [] → parseTextFormat c ≠ [] → parse c = parseTextFormat c) ∧
      (parseZmxFormat c = [] → parseTextFormat c = [] → parse c = []) := by
    intro c
    refine ⟨?_, ?_, ?_⟩
    · intro hz
      simp only [parse]
      rw [if_pos (List.length_pos.mpr hz)]
    · intro hz ht
      simp only [parse, hz]
      rw [if_neg (by simp), if_pos (List.length_pos.mpr ht)]
    · intro hz ht
      simp [parse, hz, ht]
  have hz := parseZmxFormat_eq_nil_of_no_surf content h1
  have hlen : 0 < (parseTextFormat content).length := by
    have h0 := textFoldl_pos (splitLines content) [] h2
    simpa [parseTextFormat] using h0
  have hne : parseTextFormat content ≠ [] := by
    intro hnil
    rw [hnil] at hlen
    simp at hlen
  exact ⟨hdisp, (hdisp content).2.1 hz hne, hne⟩

/-- C8 witness: the single line S1 -50.0 25.4 has no structured marker
and passes the delimited-text gates, and parse indeed returns its
non-empty delimited-text result, through the theorem. -/
theorem claimC8_witness :
    ((splitLines "S1 -50.0 25.4").all (fun l => !isSurfLine l)) = true ∧
    ((splitLines "S1 -50.0 25.4").any (fun l => goodTextLine l)) = true ∧
    parse "S1 -50.0 25.4" = parseTextFormat "S1 -50.0 25.4" ∧
    parseTextFormat "S1 -50.0 25.4" ≠ [] := by
  refine ⟨by with_unfolding_all decide, by with_unfolding_all decide, ?_, ?_⟩
  · exact (claimC8_amended "S1 -50.0 25.4" (by with_unfolding_all decide)
      (by with_unfolding_all decide)).2.1
  · exact (claimC8_amended "S1 -50.0 25.4" (by with_unfolding_all decide)
      (by with_unfolding_all decide)).2.2

/-- A non-SURF line leaves the emitted rows and the surface counter
unchanged, and can at most rewrite the fields of the current accumulator
while keeping its index. -/
lemma zmxStep_not_surf (total : ℕ) (st : ZmxState) (l : String)
    (hs : isSurfLine l = false) :
    (zmxStep total st l).surfaces = st.surfaces ∧
    (zmxStep total st l).surfaceNumber = st.surfaceNumber ∧
    ∀ cur', (zmxStep total st l).currentSurface = some cur' →
      ∃ cur, st.currentSurface = some cur ∧ cur'.number = cur.number := by
  unfold isSurfLine at hs
  have key : zmxStep total st l = st ∨
      ∃ cur cur2, st.currentSurface = some cur ∧
        zmxStep total st l = { st with currentSurface := some cur2 } ∧
        cur2.number = cur.number := by
    simp only [zmxStep, hs, Bool.false_eq_true, if_false]
    split_ifs with h1 h2 h3
    · split
      next cur heq =>
        split
        next c heq2 => exact Or.inr ⟨cur, _, heq, rfl, rfl⟩
        next heq2 => exact Or.inl rfl
      next heq => exact Or.inl rfl
    · split
      next cur heq =>
        split
        next sd heq2 =>
          split
          next h4 => exact Or.inr ⟨cur, _, heq, rfl, rfl⟩
          next h4 => exact Or.inl rfl
        next heq2 => exact Or.inl rfl
      next heq => exact Or.inl rfl
    · split
      next cur heq =>
        split
        next m heq2 =>
          split
          next h4 => exact Or.inr ⟨cur, _, heq, rfl, rfl⟩
          next h4 => exact Or.inl rfl
        next heq2 => exact Or.inl rfl
      next heq => exact Or.inl rfl
    · exact Or.inl rfl
  rcases key with heq | ⟨cur, cur2, hc, heq, hn⟩
  · rw [heq]
    exact ⟨rfl, rfl, fun cur' hc' => ⟨cur', hc', rfl⟩⟩
  · rw [heq]
    refine ⟨rfl, rfl, fun cur' hc' => ⟨cur, hc, ?_⟩⟩
    rw [← Option.some.inj hc']
    exact hn

/-- A SURF line flushes the accumulator and opens the next surface. -/
lemma zmxStep_surf (total : ℕ) (st : ZmxState) (l : String)
    (hs : isSurfLine l = true) :
    zmxStep total st l =
      { surfaces := zmxFlush total st
      , currentSurface := some
          ({ number := st.surfaceNumber + 1, radius := 0, curvature := 0
           , diameter := 0, material := none })
      , surfaceNumber := st.surfaceNumber + 1 } := by
  unfold isSurfLine at hs
  simp only [zmxStep, hs, if_true]

/-- One step of the second zmx pass preserves the invariant; the counter
grows exactly on SURF lines. -/
lemma zmxStep_inv (total : ℕ) (st : ZmxState) (l : String) (h : ZmxInv total st) :
    ZmxInv total (zmxStep total st l) ∧
    (zmxStep total st l).surfaceNumber =
      st.surfaceNumber + (if isSurfLine l then 1 else 0) := by
  obtain ⟨hcur, hlen, hprov⟩ := h
  cases hs : isSurfLine l with
  | false =>
    obtain ⟨e1, e2, e3⟩ := zmxStep_not_surf total st l hs
    refine ⟨⟨?_, ?_, ?_⟩, ?_⟩
    · intro cur' hc'
      obtain ⟨cur, hc, hn⟩ := e3 cur' hc'
      rw [e2, hn]
      exact hcur cur hc
    · rw [e1, e2]
      exact hlen
    · rw [e1]
      exact hprov
    · rw [e2]
      simp
  | true =>
    rw [zmxStep_surf total st l hs]
    refine ⟨⟨?_, ?_, ?_⟩, ?_⟩
    · intro cur' hc'
      rw [← Option.some.inj hc']
    · show ((zmxFlush total st).length : Int) ≤
        max 0 (min (st.surfaceNumber + 1 - 1) ((total : Int) - 2))
      unfold zmxFlush
      split
      next cur heq =>
        have hn := hcur cur heq
        split_ifs with hcond
        · rw [List.length_append]
          rcases hcond with ⟨-, hlo, hhi⟩
          rw [hn] at hlo hhi
          simp only [List.length_singleton]
          push_cast
          omega
        · omega
      next heq => omega
    · show ∀ r ∈ zmxFlush total st, zmxEmitted total r
      unfold zmxFlush
      split
      next cur heq =>
        split_ifs with hcond
        · intro r hr
          rcases List.mem_append.mp hr with hmem | hmem
          · exact hprov r hmem
          · rw [List.mem_singleton] at hmem
            subst hmem
            exact ⟨cur, rfl, hcond.1, hcond.2.1, hcond.2.2⟩
        · exact hprov
      next heq => exact hprov
    · simp

/-- The second zmx pass preserves the invariant over any list of lines,
and the final counter equals the starting counter plus the number of
SURF lines seen. -/
lemma zmxFoldl_inv (total : ℕ) (ls : List String) (st : ZmxState) (h : ZmxInv total st) :
    ZmxInv total (ls.foldl (zmxStep total) st) ∧
    (ls.foldl (zmxStep total) st).surfaceNumber =
      st.surfaceNumber + ((ls.filter (fun l => isSurfLine l)).length : Int) := by
  induction ls generalizing st with
  | nil => simpa using h
  | cons l ls ih =>
    rw [List.foldl_cons]
    obtain ⟨h1, h2⟩ := zmxStep_inv total st l h
    obtain ⟨g1, g2⟩ := ih (zmxStep total st l) h1
    refine ⟨g1, ?_⟩
    rw [g2, h2, List.filter_cons]
    by_cases hsl : isSurfLine l
    · rw [if_pos hsl, if_pos hsl, List.length_cons]
      omega
    · rw [if_neg hsl, if_neg (by simpa using hsl)]
      omega

/-- C4: for any input, writing N for its number of surface-boundary
(SURF) lines, the structured extraction emits at most N-2 records, and
every emitted record is the formatted image of a valid accumulated
surface whose index is strictly between 0 and N-1 (so the first and the
last surface are never emitted, whatever data they hold). -/
theorem claimC4 (content : String) :
    (parseZmxFormat content).length ≤
      ((splitLines content).filter (fun l => isSurfLine l)).length - 2 ∧
    ∀ r ∈ parseZmxFormat content,
      zmxEmitted ((splitLines content).filter (fun l => isSurfLine l)).length r := by
  have h0 : ZmxInv ((splitLines content).filter (fun l => isSurfLine l)).length
      { surfaces := [], currentSurface := none, surfaceNumber := -1 } := by
    refine ⟨?_, ?_, ?_⟩
    · intro cur hc
      simp at hc
    · simp
    · intro r hr
      simp at hr
  obtain ⟨⟨hcur, hlen, hprov⟩, hnum⟩ :=
    zmxFoldl_inv ((splitLines content).filter (fun l => isSurfLine l)).length
      (splitLines content) _ h0
  have hpz : parseZmxFormat content =
      zmxFlush ((splitLines content).filter (fun l => isSurfLine l)).length
        ((splitLines content).foldl
          (zmxStep ((splitLines content).filter (fun l => isSurfLine l)).length)
          { surfaces := [], currentSurface := none, surfaceNumber := -1 }) := rfl
  rw [hpz]
  set N := ((splitLines content).filter (fun l => isSurfLine l)).length with hN
  set st' := (splitLines content).foldl (zmxStep N)
    { surfaces := [], currentSurface := none, surfaceNumber := -1 } with hst'
  have hm : st'.surfaceNumber = (N : Int) - 1 := by
    rw [hnum]
    show (-1 : Int) + (N : Int) = (N : Int) - 1
    omega
  rw [hm] at hlen
  unfold zmxFlush
  split
  next cur heq =>
    have hn := hcur cur heq
    rw [hm] at hn
    rw [if_neg (by rintro ⟨-, -, hlt⟩; rw [hn] at hlt; omega)]
    exact ⟨by omega, hprov⟩
  next heq =>
    exact ⟨by omega, hprov⟩

/-- C4 witness: a concrete file with 3 SURF lines, where the single
interior surface is emitted, through the theorem. -/
theorem claimC4_witness :
    (parseZmxFormat "SURF 0\nSURF 1\nCURV 0.1\nDIAM 5 1\nSURF 2").length ≤
      ((splitLines "SURF 0\nSURF 1\nCURV 0.1\nDIAM 5 1\nSURF 2").filter
        (fun l => isSurfLine l)).length - 2 ∧
    zmxEmitted
      ((splitLines "SURF 0\nSURF 1\nCURV 0.1\nDIAM 5 1\nSURF 2").filter
        (fun l => isSurfLine l)).length
      { type := "Concave", diameter := 10, rTestplate := 10
      , material := some "", fringes := "" } :=
  ⟨(claimC4 "SURF 0\nSURF 1\nCURV 0.1\nDIAM 5 1\nSURF 2").1,
   (claimC4 "SURF 0\nSURF 1\nCURV 0.1\nDIAM 5 1\nSURF 2").2 _
     (by with_unfolding_all decide)⟩

end Claims

